import Mathlib

/-!
Verification of the klee-native core against its specification.

The definitions below are a shallow embedding of the code in
`lib/Core/SpecialFunctionHandler.cpp`, `lib/Core/PreLifter.cpp` and
`runtime/Native/OS/Linux/Intercepts.cpp`.  External collaborators
(the `AddressSpace` byte store, the host C library, the tracked
allocator) are modelled as oracle parameters; the control flow of each
handler is translated statement by statement from the source.
-/

/-- A symbolic expression, identified by the name of its root symbolic
array (`re->updates.root->name` in the source) and an identity tag
standing for object identity of the `ref<Expr>`. -/
structure SymExpr where
  root : String
  id : Nat
  deriving DecidableEq, Repr

/-- A klee expression value bound by `executor.bindLocal`:
`ConstantExpr::create(v, w)` becomes `const w v`,
`Expr::createPointer(v)` becomes `ptr v`, and a bound symbolic
expression becomes `sym e`. -/
inductive KExpr where
  | const (w : Nat) (v : Nat)
  | ptr (v : Nat)
  | sym (e : SymExpr)
  deriving DecidableEq, Repr

/-- One observable action of a handler on the calling execution state:
either a `bindLocal` of a value, or a termination of the state
(`terminateState...`).  The remill memory handlers never produce the
second form; carrying it in the type lets theorems state that. -/
inductive HandlerEffect where
  | bound (e : KExpr)
  | terminated (msg : String)
  deriving DecidableEq, Repr

/-- True when a handler produced no state-terminating effect. -/
def noTermination (l : List HandlerEffect) : Bool :=
  l.all fun eff =>
    match eff with
    | HandlerEffect.terminated _ => false
    | HandlerEffect.bound _ => true

/-- The native address space seen by the handlers.  `TryRead w addr`
and `TryWrite w addr v` are the width-`w` concrete accessors of
`AddressSpace` (external code, modelled as oracles: `none`/`false`
means the access failed).  `symbolic_memory` lists the
`(address, name)` keys of `mem->symbolic_memory->objects`. -/
structure Mem where
  TryRead : Nat → Nat → Option Nat
  TryWrite : Nat → Nat → Nat → Bool
  symbolic_memory : List (Nat × String)

/-- The klee execution state: `state.symbolics`, as a list of
(symbol name, current 32-bit content of the backing object state). -/
structure ExecState where
  symbolics : List (String × SymExpr)

/-- SpecialFunctionHandler::handle__remill_read_8. -/
def handle__remill_read_8 (mem : Mem) (addr : Nat) : List HandlerEffect :=
  match mem.TryRead 8 addr with
  | some v => [HandlerEffect.bound (KExpr.const 8 (v % 2 ^ 8))]
  | none => [HandlerEffect.bound (KExpr.const 8 (2 ^ 8 - 1))]

/-- SpecialFunctionHandler::handle__remill_read_16. -/
def handle__remill_read_16 (mem : Mem) (addr : Nat) : List HandlerEffect :=
  match mem.TryRead 16 addr with
  | some v => [HandlerEffect.bound (KExpr.const 16 (v % 2 ^ 16))]
  | none => [HandlerEffect.bound (KExpr.const 16 (2 ^ 16 - 1))]

/-- SpecialFunctionHandler::handle__remill_read_64. -/
def handle__remill_read_64 (mem : Mem) (addr : Nat) : List HandlerEffect :=
  match mem.TryRead 64 addr with
  | some v => [HandlerEffect.bound (KExpr.const 64 (v % 2 ^ 64))]
  | none => [HandlerEffect.bound (KExpr.const 64 (2 ^ 64 - 1))]

/-- The inner loop of handle__remill_read_32 once an overlay matched:
for every entry of `state.symbolics` whose name equals the overlay's
symbol, the stored expression is read back and bound. -/
def overlayBinds (st : ExecState) (name : String) : List HandlerEffect :=
  (st.symbolics.filter fun p => p.1 == name).map fun p =>
    HandlerEffect.bound (KExpr.sym p.2)

/-- SpecialFunctionHandler::handle__remill_read_32: first scans
`mem->symbolic_memory->objects` for an overlay whose address equals
`addr` (returning the stored symbolic expression of the matching
tracked symbol), and only otherwise performs the concrete
TryRead with the all-ones fallback. -/
def handle__remill_read_32 (mem : Mem) (st : ExecState) (addr : Nat) :
    List HandlerEffect :=
  match mem.symbolic_memory.find? (fun ov => ov.1 == addr) with
  | some ov => overlayBinds st ov.2
  | none =>
    match mem.TryRead 32 addr with
    | some v => [HandlerEffect.bound (KExpr.const 32 (v % 2 ^ 32))]
    | none => [HandlerEffect.bound (KExpr.const 32 (2 ^ 32 - 1))]

/-- SpecialFunctionHandler::handle__remill_write_64 (the value argument
is a concrete constant, as the source unconditionally casts it). -/
def handle__remill_write_64 (mem : Mem) (memHandle addr value : Nat) :
    List HandlerEffect :=
  if mem.TryWrite 64 addr (value % 2 ^ 64) then
    [HandlerEffect.bound (KExpr.const 64 memHandle)]
  else
    [HandlerEffect.bound (KExpr.ptr 0)]

/-- SpecialFunctionHandler::handle__remill_write_16. -/
def handle__remill_write_16 (mem : Mem) (memHandle addr value : Nat) :
    List HandlerEffect :=
  if mem.TryWrite 16 addr (value % 2 ^ 16) then
    [HandlerEffect.bound (KExpr.const 64 memHandle)]
  else
    [HandlerEffect.bound (KExpr.ptr 0)]

/-- SpecialFunctionHandler::handle__remill_write_8. -/
def handle__remill_write_8 (mem : Mem) (memHandle addr value : Nat) :
    List HandlerEffect :=
  if mem.TryWrite 8 addr (value % 2 ^ 8) then
    [HandlerEffect.bound (KExpr.const 64 memHandle)]
  else
    [HandlerEffect.bound (KExpr.ptr 0)]

/-- The value argument of handle__remill_write_32: either a compile
time constant (`isa<ConstantExpr>`) or a symbolic expression. -/
inductive WVal where
  | concrete (v : Nat)
  | symbolic (e : SymExpr)
  deriving DecidableEq, Repr

/-- SpecialFunctionHandler::handle__remill_write_32.  Note the source's
final `bindLocal(target, state, Expr::createPointer(0))` sits after
the if/else, so it runs on the concrete path as well; the list of
effects records every bindLocal in order. -/
def handle__remill_write_32 (mem : Mem) (st : ExecState)
    (memHandle addr : Nat) (value : WVal) :
    List HandlerEffect × Mem × ExecState :=
  match value with
  | WVal.concrete v =>
    if mem.TryWrite 32 addr (v % 2 ^ 32) then
      ([HandlerEffect.bound (KExpr.const 64 memHandle),
        HandlerEffect.bound (KExpr.ptr 0)], mem, st)
    else
      ([HandlerEffect.bound (KExpr.ptr 0)], mem, st)
  | WVal.symbolic e =>
    let found := st.symbolics.filter fun p => p.1 == e.root
    let mem' : Mem :=
      { mem with symbolic_memory :=
          (found.map fun p => (addr, p.1)) ++ mem.symbolic_memory }
    let st' : ExecState :=
      { st with symbolics :=
          st.symbolics.map fun p => if p.1 == e.root then (p.1, e) else p }
    ([HandlerEffect.bound (KExpr.ptr 0)], mem', st')

/-- EFAULT on Linux. -/
def EFAULT : Nat := 14

/-- The ten numeric fields of a host `struct stat` used by the
handlers, in declaration order. -/
structure StatInfo where
  st_dev : Nat
  st_ino : Nat
  st_mode : Nat
  st_nlink : Nat
  st_uid : Nat
  st_gid : Nat
  st_rdev : Nat
  st_size : Nat
  st_blksize : Nat
  st_blocks : Nat
  deriving DecidableEq, Repr

/-- SpecialFunctionHandler::set_up_fstat_struct: clears the shared
cache vector and pushes the ten fields in order. -/
def set_up_fstat_struct (info : StatInfo) : List Nat :=
  [info.st_dev, info.st_ino, info.st_mode, info.st_nlink, info.st_uid,
   info.st_gid, info.st_rdev, info.st_size, info.st_blksize, info.st_blocks]

/-- Observable outcome of an fstat/stat handler: the value bound for
the intercept's return, the shared cache vector afterwards, and the
host errno set by the handler. -/
structure FstatOutcome where
  bound : KExpr
  fstat_vector : List Nat
  errno : Nat
  deriving DecidableEq, Repr

/-- SpecialFunctionHandler::handle__fstat64; the host `fstat` call is
an oracle (`none` models a -1 return). -/
def handle__fstat64 (fstat_vector : List Nat) (host : Option StatInfo) :
    FstatOutcome :=
  match host with
  | none => ⟨KExpr.const 32 (2 ^ 32 - 1), fstat_vector, EFAULT⟩
  | some info => ⟨KExpr.const 64 0, set_up_fstat_struct info, 0⟩

/-- SpecialFunctionHandler::handle__stat64; its success branch binds 0
and clears errno but performs no copy into the cache vector. -/
def handle__stat64 (fstat_vector : List Nat) (host : Option StatInfo) :
    FstatOutcome :=
  match host with
  | none => ⟨KExpr.const 32 (2 ^ 32 - 1), fstat_vector, EFAULT⟩
  | some _ => ⟨KExpr.const 64 0, fstat_vector, 0⟩

/-- SpecialFunctionHandler::handle_get_fstat_index: binds
`fstat_vector[index]` as a 64-bit constant. -/
def handle_get_fstat_index (fstat_vector : List Nat) (index : Nat) : KExpr :=
  KExpr.const 64 (fstat_vector.getD index 0)

/-- The directory-entry fields cached by the readdir handler. -/
structure DirentInfo where
  d_ino : Nat
  d_off : Nat
  d_reclen : Nat
  d_type : Nat
  d_name : String
  deriving DecidableEq, Repr

/-- SpecialFunctionHandler::set_up_dirent_struct: copies inode,
offset, record length, type and name into the shared entry. -/
def set_up_dirent_struct (info : DirentInfo) : DirentInfo :=
  { d_ino := info.d_ino, d_off := info.d_off, d_reclen := info.d_reclen,
    d_type := info.d_type, d_name := info.d_name }

/-- SpecialFunctionHandler::handle_get_dirent_index.  The switch in the
source has no break statements, so every case from 0 to 3 falls
through to the last assignment and `field` ends up holding
`dirent_entry.d_type` (truncated to `unsigned`); an index above 3
leaves `field` uninitialized, modelled as `none`. -/
def handle_get_dirent_index (dirent_entry : DirentInfo) (index : Nat) :
    Option KExpr :=
  if index ≤ 3 then some (KExpr.const 64 (dirent_entry.d_type % 2 ^ 32))
  else none

/-- SpecialFunctionHandler::handle__my_readdir; the host `readdir`
is an oracle (`none` models a null entry, i.e. end of directory).
Returns the bound boolean and the shared dirent cache afterwards. -/
def handle__my_readdir (dirent_entry : DirentInfo) (host : Option DirentInfo) :
    KExpr × DirentInfo :=
  match host with
  | none => (KExpr.const 1 0, dirent_entry)
  | some info => (KExpr.const 1 1, set_up_dirent_struct info)

/-- Sentinel ~0ULL: fall back to the real host allocator. -/
def kBadAddr : Nat := 2 ^ 64 - 1

/-- Sentinel ~0ULL - 1: realloc pointer displaced inside an allocation. -/
def kReallocInternalPtr : Nat := 2 ^ 64 - 2

/-- Sentinel ~0ULL - 2: realloc size too big. -/
def kReallocTooBig : Nat := 2 ^ 64 - 3

/-- Sentinel ~0ULL - 3: realloc on an untracked pointer. -/
def kReallocInvalidPtr : Nat := 2 ^ 64 - 4

/-- Sentinel ~0ULL - 4: realloc on an already freed pointer. -/
def kReallocFreedPtr : Nat := 2 ^ 64 - 5

/-- Sentinel ~0ULL - 1: malloc size too big (the same numeric value as
`kReallocInternalPtr`). -/
def kMallocTooBig : Nat := 2 ^ 64 - 2

/-- Observable outcome of an allocator intercept: `setReturn v` for
`intercept.SetReturn(memory, state, v)`, `fallback` for a plain
`return memory` (delegation to the real host allocator), `abort` for
`klee_abort()`. -/
inductive InterceptResult where
  | setReturn (v : Nat)
  | fallback
  | abort
  deriving DecidableEq, Repr

/-- Intercept_malloc; the tracked allocator `malloc_intercept` is the
oracle `mi`, and `argsOk` models `TryGetArgs` succeeding. -/
def Intercept_malloc (argsOk : Bool) (alloc_size : Nat) (mi : Nat → Nat) :
    InterceptResult :=
  if argsOk = false then InterceptResult.setReturn 0
  else if alloc_size = 0 then InterceptResult.setReturn 0
  else if mi alloc_size = kBadAddr then InterceptResult.fallback
  else if mi alloc_size = kMallocTooBig then InterceptResult.fallback
  else InterceptResult.setReturn (mi alloc_size)

/-- Intercept_free; the tracked allocator `free_intercept` is the
oracle `fi`. -/
def Intercept_free (argsOk : Bool) (address : Nat) (fi : Nat → Bool) :
    InterceptResult :=
  if argsOk = false then InterceptResult.setReturn 0
  else if fi address = false then InterceptResult.fallback
  else InterceptResult.setReturn 0

/-- The `new_ptr` computed by Intercept_realloc: a null incoming
pointer degrades to the tracked malloc, otherwise the tracked realloc
runs. -/
def reallocNewPtr (ptr alloc_size : Nat) (mi : Nat → Nat)
    (ri : Nat → Nat → Nat) : Nat :=
  if ptr = 0 then mi alloc_size else ri ptr alloc_size

/-- Intercept_realloc; tracked malloc and realloc are the oracles
`mi` and `ri`. -/
def Intercept_realloc (argsOk : Bool) (ptr alloc_size : Nat)
    (mi : Nat → Nat) (ri : Nat → Nat → Nat) : InterceptResult :=
  if argsOk = false then InterceptResult.setReturn 0
  else if reallocNewPtr ptr alloc_size mi ri = kBadAddr then
    InterceptResult.fallback
  else if reallocNewPtr ptr alloc_size mi ri = kReallocInternalPtr then
    InterceptResult.abort
  else if reallocNewPtr ptr alloc_size mi ri = kReallocTooBig then
    InterceptResult.abort
  else if reallocNewPtr ptr alloc_size mi ri = kReallocInvalidPtr then
    InterceptResult.abort
  else if reallocNewPtr ptr alloc_size mi ri = kReallocFreedPtr then
    InterceptResult.abort
  else InterceptResult.setReturn (reallocNewPtr ptr alloc_size mi ri)

/-- A mapped memory region of the native address space: base address,
limit address and name. -/
structure MemoryRegion where
  base : Nat
  limit : Nat
  name : String
  deriving DecidableEq, Repr

/-- PreLifter::RecursiveDescentPass.  The entire body of the source
function is commented out, so the pass returns with the decoder work
list and the trace map exactly as given. -/
def RecursiveDescentPass (map : MemoryRegion)
    (decoder_work_list : List (Nat × Bool)) (new_lifted_traces : List Nat) :
    List (Nat × Bool) × List Nat :=
  (decoder_work_list, new_lifted_traces)

/-- PreLifter::LinearSweepPass.  The entire body of the source function
is commented out, so the pass returns with the decoder work list and
the trace map exactly as given. -/
def LinearSweepPass (map : MemoryRegion)
    (decoder_work_list : List (Nat × Bool)) (new_lifted_traces : List Nat) :
    List (Nat × Bool) × List Nat :=
  (decoder_work_list, new_lifted_traces)

/-- State of the trace-list file in the workspace, seen by
PreLifter::decodeAndLiftMappings: absent, present but unreadable, or
readable with a label line followed by hexadecimal trace addresses. -/
inductive TraceListFile where
  | missing
  | unreadable
  | readable (label : String) (addrs : List Nat)
  deriving DecidableEq, Repr

/-- Result of PreLifter::decodeAndLiftMappings: the trace batches
handed to workers, and whether the fallback error was logged. -/
structure PreLiftOutcome where
  workers : List (List Nat)
  loggedFallback : Bool
  deriving DecidableEq, Repr

/-- One step of the trace-batching loop in decodeAndLiftMappings: the
running state is (finished batches, prev_base, current batch). -/
def traceBatchStep (sameRange : Nat → Nat → Bool)
    (acc : List (List Nat) × Nat × List Nat) (trace_address : Nat) :
    List (List Nat) × Nat × List Nat :=
  let (ws, prev_base, batch) := acc
  if sameRange trace_address prev_base then
    (ws, prev_base, batch ++ [trace_address])
  else
    ((if batch.isEmpty then ws else ws ++ [batch]), trace_address,
      [trace_address])

/-- PreLifter::decodeAndLiftMappings.  `sameRange` is the external
`AddressSpace::IsSameMappedRange` predicate.  A missing file is skipped
silently; an unreadable file logs the fallback error and returns; a
readable file is batched by mapped range.  No discovery pass is ever
invoked. -/
def decodeAndLiftMappings (sameRange : Nat → Nat → Bool)
    (file : TraceListFile) : PreLiftOutcome :=
  match file with
  | TraceListFile.missing => ⟨[], false⟩
  | TraceListFile.unreadable => ⟨[], true⟩
  | TraceListFile.readable _ addrs =>
    let fin := addrs.foldl (traceBatchStep sameRange) ([], 0, [])
    ⟨(if fin.2.2.isEmpty then fin.1 else fin.1 ++ [fin.2.2]), false⟩

/-- The native address space's region table, used by rehydration. -/
structure AddrSpace where
  ranges : List MemoryRegion
  deriving DecidableEq, Repr

/-- Whether a region contains an address. -/
def containsB (addr : Nat) (r : MemoryRegion) : Bool :=
  decide (r.base ≤ addr ∧ addr < r.limit)

/-- Modelled from the spec: `AddressSpace::FindRange` (not under src/)
resolves an address "through the AddressSpace to find the owning
MemoryRegion"; the name of the first region containing the address is
returned, or the empty name of the invalid range if none contains it. -/
def FindRangeName (sp : AddrSpace) (addr : Nat) : String :=
  match sp.ranges.find? (containsB addr) with
  | some r => r.name
  | none => ""

/-- Hexadecimal value of one character, if it is a hex digit. -/
def hexVal (c : Char) : Option Nat :=
  if '0' ≤ c ∧ c ≤ '9' then some (c.toNat - '0'.toNat)
  else if 'a' ≤ c ∧ c ≤ 'f' then some (c.toNat - 'a'.toNat + 10)
  else if 'A' ≤ c ∧ c ≤ 'F' then some (c.toNat - 'A'.toNat + 10)
  else none

/-- Accumulate leading hexadecimal digits, stopping at the first
non-digit, as `operator>>` with `std::hex` does. -/
def parseHexDigits : List Char → Nat → Nat
  | [], acc => acc
  | c :: cs, acc =>
    match hexVal c with
    | some d => parseHexDigits cs (acc * 16 + d)
    | none => acc

/-- Parse the leading hexadecimal number of a string, allowing the
0x/0X prefix accepted by `std::hex` extraction. -/
def parseLeadingHex (s : String) : Nat :=
  match s.toList with
  | '0' :: 'x' :: rest => parseHexDigits rest 0
  | '0' :: 'X' :: rest => parseHexDigits rest 0
  | l => parseHexDigits l 0

/-- `name.substr(0, name.find("-"))`: the filename up to the first
dash. -/
def leadingName (fname : String) : String :=
  String.mk (fname.toList.takeWhile fun c => c ≠ '-')

/-- The `aot_traces` table: region name to loaded module, a loaded
module being identified by the path it was loaded from. -/
def ModuleTable : Type := String → Option String

/-- The key/value assignment performed by one iteration of the preLift
rehydration loop: skip "." and "..", otherwise register the module
loaded from `path/fname` under the name of the region owning the
leading hexadecimal address of `fname`. -/
def entryKV (sp : AddrSpace) (path fname : String) :
    Option (String × String) :=
  if fname = "." ∨ fname = ".." then none
  else some (FindRangeName sp (parseLeadingHex (leadingName fname)),
    path ++ "/" ++ fname)

/-- One iteration of the rehydration loop of PreLifter::preLift over a
directory entry: `aot_traces[page_name] = LoadModuleFromFile(...)`. -/
def loadEntry (sp : AddrSpace) (path : String) (t : ModuleTable)
    (fname : String) : ModuleTable :=
  match entryKV sp path fname with
  | none => t
  | some p => fun k => if k = p.1 then some p.2 else t k

/-- The full rehydration scan of PreLifter::preLift over the listing of
the prelift_traces directory. -/
def preLiftScan (sp : AddrSpace) (path : String) (dir : List String)
    (t : ModuleTable) : ModuleTable :=
  dir.foldl (loadEntry sp path) t

/-- True when a handler bound no stored symbolic expression (i.e. it
only ever binds concrete constants or pointers). -/
def noSymbolicBind (l : List HandlerEffect) : Bool :=
  l.all fun eff =>
    match eff with
    | HandlerEffect.bound (KExpr.sym _) => false
    | _ => true

/-- The assignments a directory listing makes to the module table
during rehydration, later entries taking precedence; used to
characterize `preLiftScan` pointwise. -/
def assignedKV (sp : AddrSpace) (path : String) :
    List String → String → Option String
  | [], _ => none
  | f :: rest, k =>
    match assignedKV sp path rest k with
    | some v => some v
    | none =>
      match entryKV sp path f with
      | some p => if k = p.1 then some p.2 else none
      | none => none

/-- A stored symbolic expression used in concrete instances. -/
def symE : SymExpr := ⟨"x", 1⟩

/-- An address space with a symbolic overlay at address 5 for symbol
"x", whose concrete reads all succeed with value 42. -/
def memC1 : Mem := ⟨fun _ _ => some 42, fun _ _ _ => true, [(5, "x")]⟩

/-- An execution state tracking symbol "x" with stored content `symE`. -/
def stC1 : ExecState := ⟨[("x", symE)]⟩

/-- An address space with no overlays whose writes all succeed. -/
def memOkW : Mem := ⟨fun _ _ => none, fun _ _ _ => true, []⟩

/-- An address space with no overlays whose writes all fail. -/
def memFailW : Mem := ⟨fun _ _ => none, fun _ _ _ => false, []⟩

/-- An execution state tracking no symbols. -/
def stEmpty : ExecState := ⟨[]⟩

/-- An execution state tracking symbol "x" with stored content
`⟨"x", 2⟩`, prior to a symbolic write. -/
def stB : ExecState := ⟨[("x", ⟨"x", 2⟩)]⟩

/-- A symbolic expression over root symbol "x", to be written. -/
def ewW : SymExpr := ⟨"x", 3⟩

/-- An address space on which every concrete access fails and that has
no overlays. -/
def memFailR : Mem := ⟨fun _ _ => none, fun _ _ _ => false, []⟩

/-- A concrete mapped region for the discovery-pass instances. -/
def regionC3 : MemoryRegion := ⟨4096, 8192, "text"⟩

/-- A concrete host stat result with ten distinct field values. -/
def infoC5 : StatInfo := ⟨1, 2, 3, 4, 5, 6, 7, 8, 9, 10⟩

/-- A concrete host directory entry with distinct field values. -/
def dC6 : DirentInfo := ⟨1, 2, 3, 4, "f"⟩

/-- A previously cached directory entry. -/
def dPrev : DirentInfo := ⟨11, 12, 13, 14, "g"⟩

/-- A tracked malloc oracle that never fails. -/
def miC7 : Nat → Nat := fun _ => 4096

/-- A tracked realloc oracle reporting the freed-pointer sentinel for
pointer 3 and the fall-back sentinel otherwise. -/
def riC7 : Nat → Nat → Nat := fun p _ => if p = 3 then kReallocFreedPtr else kBadAddr

/-- A tracked malloc oracle that always reports the too-big sentinel. -/
def miTooBig : Nat → Nat := fun _ => kMallocTooBig

/-- A tracked realloc oracle that always succeeds at address 0. -/
def riC8 : Nat → Nat → Nat := fun _ _ => 0

/-- A tracked malloc oracle returning ordinary addresses. -/
def miW : Nat → Nat := fun s => 4096 + s

/-- A tracked realloc oracle that frees (returns null) on size 0 and
otherwise returns an ordinary address. -/
def riW : Nat → Nat → Nat := fun _ s => if s = 0 then 0 else 8192 + s

/-- A tracked free oracle that always succeeds. -/
def fiW : Nat → Bool := fun _ => true

/-- An address space owning one region named "text" over
[0x1000, 0x2000). -/
def spW : AddrSpace := ⟨[⟨4096, 8192, "text"⟩]⟩

/-- Claim C1 counterexample: with a symbolic overlay present at
address 5 for the tracked symbol "x", the 32-bit read returns the
stored symbolic expression, but the 64-bit read (likewise 8 and 16)
returns the concretized value 42 instead of the stored expression —
so the claim fails for widths other than 32. -/
theorem c1_counterexample :
    handle__remill_read_32 memC1 stC1 5 = [HandlerEffect.bound (KExpr.sym symE)]
    ∧ handle__remill_read_64 memC1 5 = [HandlerEffect.bound (KExpr.const 64 42)]
    ∧ handle__remill_read_8 memC1 5 = [HandlerEffect.bound (KExpr.const 8 42)]
    ∧ handle__remill_read_16 memC1 5 = [HandlerEffect.bound (KExpr.const 16 42)]
    ∧ HandlerEffect.bound (KExpr.const 64 42) ≠ HandlerEffect.bound (KExpr.sym symE) := by
  refine ⟨by decide, by decide, by decide, by decide, by decide⟩

/-- Claim C1 as amended: only the 32-bit read consults the symbolic
overlay map.  When an overlay exists at the address for a tracked
symbol, handle__remill_read_32 returns the stored symbolic expression,
and a value written symbolically by the 32-bit write is returned
identically by a following 32-bit read at the same address; the 8-,
16- and 64-bit reads never bind a stored symbolic expression, even
when an overlay exists at the address. -/
theorem c1_only_width32_reads_symbolic
    (mem mem0 : Mem) (st st0 : ExecState) (addr h : Nat) (name : String)
    (e epre ew : SymExpr)
    (hov : mem.symbolic_memory.find? (fun ov => ov.1 == addr) = some (addr, name))
    (hsym : st.symbolics = [(name, e)])
    (h0 : mem0.symbolic_memory = [])
    (hs0 : st0.symbolics = [(ew.root, epre)]) :
    handle__remill_read_32 mem st addr = [HandlerEffect.bound (KExpr.sym e)]
    ∧ noSymbolicBind (handle__remill_read_8 mem addr) = true
    ∧ noSymbolicBind (handle__remill_read_16 mem addr) = true
    ∧ noSymbolicBind (handle__remill_read_64 mem addr) = true
    ∧ handle__remill_read_32
        (handle__remill_write_32 mem0 st0 h addr (WVal.symbolic ew)).2.1
        (handle__remill_write_32 mem0 st0 h addr (WVal.symbolic ew)).2.2 addr
      = [HandlerEffect.bound (KExpr.sym ew)] := by
  refine ⟨?_, ?_, ?_, ?_, ?_⟩
  · simp [handle__remill_read_32, hov, overlayBinds, hsym]
  · cases hr : mem.TryRead 8 addr <;>
      simp [handle__remill_read_8, noSymbolicBind, hr]
  · cases hr : mem.TryRead 16 addr <;>
      simp [handle__remill_read_16, noSymbolicBind, hr]
  · cases hr : mem.TryRead 64 addr <;>
      simp [handle__remill_read_64, noSymbolicBind, hr]
  · simp [handle__remill_write_32, hs0, h0, handle__remill_read_32, overlayBinds]

/-- Claim C1 witness: the amended theorem applied at the concrete
instances above. -/
theorem c1_witness :
    handle__remill_read_32 memC1 stC1 5 = [HandlerEffect.bound (KExpr.sym symE)]
    ∧ noSymbolicBind (handle__remill_read_8 memC1 5) = true
    ∧ noSymbolicBind (handle__remill_read_16 memC1 5) = true
    ∧ noSymbolicBind (handle__remill_read_64 memC1 5) = true
    ∧ handle__remill_read_32
        (handle__remill_write_32 memOkW stB 7 5 (WVal.symbolic ewW)).2.1
        (handle__remill_write_32 memOkW stB 7 5 (WVal.symbolic ewW)).2.2 5
      = [HandlerEffect.bound (KExpr.sym ewW)] :=
  c1_only_width32_reads_symbolic memC1 memOkW stC1 stB 5 7 "x" symE ⟨"x", 2⟩ ewW
    (by decide) (by decide) (by decide) (by decide)

/-- Claim C2 (code bug in handle__remill_write_32): the 64-, 16- and
8-bit concrete writes bind the unchanged address-space handle on
success and a null pointer on failure, but the 32-bit concrete write
first binds the handle on success and then unconditionally re-binds a
null pointer (the trailing bindLocal in the source sits outside the
else branch), so its final bound result is the null pointer even for a
successful write. -/
theorem c2_write32_success_rebinds_null :
    handle__remill_write_64 memOkW 7 5 42 = [HandlerEffect.bound (KExpr.const 64 7)]
    ∧ handle__remill_write_16 memOkW 7 5 42 = [HandlerEffect.bound (KExpr.const 64 7)]
    ∧ handle__remill_write_8 memOkW 7 5 42 = [HandlerEffect.bound (KExpr.const 64 7)]
    ∧ handle__remill_write_64 memFailW 7 5 42 = [HandlerEffect.bound (KExpr.ptr 0)]
    ∧ (handle__remill_write_32 memOkW stEmpty 7 5 (WVal.concrete 42)).1
        = [HandlerEffect.bound (KExpr.const 64 7), HandlerEffect.bound (KExpr.ptr 0)]
    ∧ (handle__remill_write_32 memOkW stEmpty 7 5 (WVal.concrete 42)).1.getLast?
        = some (HandlerEffect.bound (KExpr.ptr 0))
    ∧ (handle__remill_write_32 memFailW stEmpty 7 5 (WVal.concrete 42)).1.getLast?
        = some (HandlerEffect.bound (KExpr.ptr 0)) := by
  refine ⟨by decide, by decide, by decide, by decide, by decide, by decide, by decide⟩

/-- Claim C9: when the concrete access fails (unmapped or unreadable
address, no overlay involved), every width-N read binds the all-ones
sentinel of width N and never terminates the calling execution
state. -/
theorem c9_read_failure_sentinel (mem : Mem) (st : ExecState) (addr : Nat)
    (h8 : mem.TryRead 8 addr = none) (h16 : mem.TryRead 16 addr = none)
    (h32 : mem.TryRead 32 addr = none) (h64 : mem.TryRead 64 addr = none)
    (hov : mem.symbolic_memory.find? (fun ov => ov.1 == addr) = none) :
    handle__remill_read_8 mem addr = [HandlerEffect.bound (KExpr.const 8 (2 ^ 8 - 1))]
    ∧ handle__remill_read_16 mem addr = [HandlerEffect.bound (KExpr.const 16 (2 ^ 16 - 1))]
    ∧ handle__remill_read_32 mem st addr = [HandlerEffect.bound (KExpr.const 32 (2 ^ 32 - 1))]
    ∧ handle__remill_read_64 mem addr = [HandlerEffect.bound (KExpr.const 64 (2 ^ 64 - 1))]
    ∧ noTermination (handle__remill_read_8 mem addr) = true
    ∧ noTermination (handle__remill_read_16 mem addr) = true
    ∧ noTermination (handle__remill_read_32 mem st addr) = true
    ∧ noTermination (handle__remill_read_64 mem addr) = true := by
  refine ⟨?_, ?_, ?_, ?_, ?_, ?_, ?_, ?_⟩ <;>
    simp [handle__remill_read_8, handle__remill_read_16, handle__remill_read_32,
      handle__remill_read_64, noTermination, h8, h16, h32, h64, hov]

/-- Claim C9 witness: the theorem applied to an address space on which
every access fails. -/
theorem c9_witness :
    handle__remill_read_8 memFailR 5 = [HandlerEffect.bound (KExpr.const 8 (2 ^ 8 - 1))]
    ∧ handle__remill_read_16 memFailR 5 = [HandlerEffect.bound (KExpr.const 16 (2 ^ 16 - 1))]
    ∧ handle__remill_read_32 memFailR stEmpty 5 = [HandlerEffect.bound (KExpr.const 32 (2 ^ 32 - 1))]
    ∧ handle__remill_read_64 memFailR 5 = [HandlerEffect.bound (KExpr.const 64 (2 ^ 64 - 1))]
    ∧ noTermination (handle__remill_read_8 memFailR 5) = true
    ∧ noTermination (handle__remill_read_16 memFailR 5) = true
    ∧ noTermination (handle__remill_read_32 memFailR stEmpty 5) = true
    ∧ noTermination (handle__remill_read_64 memFailR 5) = true :=
  c9_read_failure_sentinel memFailR stEmpty 5 rfl rfl rfl rfl rfl

/-- Claim C3 counterexample: with a missing trace-list file, nothing is
logged and no trace batches are produced, and the fallback discovery
passes themselves add no trace to any input — so candidate traces are
never produced for reachable code on this path. -/
theorem c3_counterexample :
    (decodeAndLiftMappings (fun _ _ => true) TraceListFile.missing).loggedFallback = false
    ∧ (decodeAndLiftMappings (fun _ _ => true) TraceListFile.missing).workers = []
    ∧ (decodeAndLiftMappings (fun _ _ => true) TraceListFile.unreadable).workers = []
    ∧ RecursiveDescentPass regionC3 [] [] = ([], [])
    ∧ LinearSweepPass regionC3 [] [] = ([], []) := by
  refine ⟨by decide, by decide, by decide, rfl, rfl⟩

/-- Claim C3 as amended: a missing trace-list file is skipped silently
(no log, no batches); a file that exists but cannot be read logs the
fallback error but no fallback discovery ever runs — the
recursive-descent and linear-sweep passes are no-ops — so in both
cases no trace batches are produced. -/
theorem c3_no_fallback_no_batches (sameRange : Nat → Nat → Bool)
    (map : MemoryRegion) (wl : List (Nat × Bool)) (tm : List Nat) :
    decodeAndLiftMappings sameRange TraceListFile.missing = ⟨[], false⟩
    ∧ decodeAndLiftMappings sameRange TraceListFile.unreadable = ⟨[], true⟩
    ∧ RecursiveDescentPass map wl tm = (wl, tm)
    ∧ LinearSweepPass map wl tm = (wl, tm) :=
  ⟨rfl, rfl, rfl, rfl⟩

/-- Claim C4: both discovery passes return the decoder work list and
the trace map exactly as they were passed in (their whole bodies are
commented out in the source), so the trace-list file is the only
source of trace addresses for the lifting pipeline. -/
theorem c4_discovery_passes_are_noops (map : MemoryRegion)
    (wl : List (Nat × Bool)) (tm : List Nat) :
    RecursiveDescentPass map wl tm = (wl, tm)
    ∧ LinearSweepPass map wl tm = (wl, tm) :=
  ⟨rfl, rfl⟩

/-- Claim C5 (code bug in handle__stat64): a successful fstat copies
the ten fields into the shared cache in the claimed order and the
indexed getter returns them, with return 0 and errno 0; but a
successful stat binds 0 and clears errno without ever copying the
fields, so the getter still returns the stale cache (here 77, not the
device field 1).  Failures return -1 with errno EFAULT as claimed. -/
theorem c5_stat_success_skips_cache :
    handle__fstat64 [77] (some infoC5)
      = ⟨KExpr.const 64 0, [1, 2, 3, 4, 5, 6, 7, 8, 9, 10], 0⟩
    ∧ handle_get_fstat_index (handle__fstat64 [77] (some infoC5)).fstat_vector 0
      = KExpr.const 64 1
    ∧ handle_get_fstat_index (handle__fstat64 [77] (some infoC5)).fstat_vector 9
      = KExpr.const 64 10
    ∧ handle__fstat64 [77] none = ⟨KExpr.const 32 (2 ^ 32 - 1), [77], EFAULT⟩
    ∧ handle__stat64 [77] none = ⟨KExpr.const 32 (2 ^ 32 - 1), [77], EFAULT⟩
    ∧ handle__stat64 [77] (some infoC5) = ⟨KExpr.const 64 0, [77], 0⟩
    ∧ handle_get_fstat_index (handle__stat64 [77] (some infoC5)).fstat_vector 0
      = KExpr.const 64 77
    ∧ (77 : Nat) ≠ infoC5.st_dev := by
  refine ⟨by decide, by decide, by decide, by decide, by decide, by decide,
    by decide, by decide⟩

/-- Claim C6 (code bug in handle_get_dirent_index): a successful
readdir caches the entry and binds true, and end-of-directory binds
false as claimed; but the getter's switch has no breaks, so indices 0,
1, 2 and 3 all fall through to the last case and return the entry's
type field (4), not the inode (1), offset (2) or record length (3). -/
theorem c6_dirent_getter_fallthrough :
    handle__my_readdir dPrev (some dC6) = (KExpr.const 1 1, dC6)
    ∧ handle_get_dirent_index dC6 0 = some (KExpr.const 64 4)
    ∧ handle_get_dirent_index dC6 1 = some (KExpr.const 64 4)
    ∧ handle_get_dirent_index dC6 2 = some (KExpr.const 64 4)
    ∧ handle_get_dirent_index dC6 3 = some (KExpr.const 64 4)
    ∧ some (KExpr.const 64 4) ≠ some (KExpr.const 64 dC6.d_ino)
    ∧ handle__my_readdir dPrev none = (KExpr.const 1 0, dPrev) := by
  refine ⟨by decide, by decide, by decide, by decide, by decide, by decide,
    by decide⟩

/-- Claim C7: whenever the tracked allocator's result for a realloc
intercept call is one of the four invalid-pointer sentinels
(displaced/internal pointer, size too big, untracked pointer, already
freed pointer), the intercept aborts the simulated process, and when
it is the bad-address sentinel the intercept instead falls back to the
real host allocator without aborting. -/
theorem c7_realloc_sentinels (ptr n : Nat) (mi : Nat → Nat)
    (ri : Nat → Nat → Nat) :
    (reallocNewPtr ptr n mi ri = kReallocInternalPtr
      ∨ reallocNewPtr ptr n mi ri = kReallocTooBig
      ∨ reallocNewPtr ptr n mi ri = kReallocInvalidPtr
      ∨ reallocNewPtr ptr n mi ri = kReallocFreedPtr →
      Intercept_realloc true ptr n mi ri = InterceptResult.abort)
    ∧ (reallocNewPtr ptr n mi ri = kBadAddr →
      Intercept_realloc true ptr n mi ri = InterceptResult.fallback) := by
  constructor
  · intro h
    unfold Intercept_realloc
    rcases h with h | h | h | h <;> rw [h] <;> decide
  · intro h
    unfold Intercept_realloc
    rw [h]
    decide

/-- Claim C7 witness: the theorem applied to a tracked allocator
reporting the freed-pointer sentinel for pointer 3 and the bad-address
sentinel for pointer 4. -/
theorem c7_witness :
    Intercept_realloc true 3 16 miC7 riC7 = InterceptResult.abort
    ∧ Intercept_realloc true 4 16 miC7 riC7 = InterceptResult.fallback :=
  ⟨(c7_realloc_sentinels 3 16 miC7 riC7).1 (Or.inr (Or.inr (Or.inr (by decide)))),
   (c7_realloc_sentinels 4 16 miC7 riC7).2 (by decide)⟩

/-- Claim C8 counterexample: with a tracked allocator whose malloc
reports the too-big sentinel, malloc(16) falls back to the real host
allocator, but realloc(null, 16) — which routes the same allocator
result through realloc's sentinel table, where the same numeric value
means "internal pointer" — aborts, so the two are not identical. -/
theorem c8_counterexample :
    Intercept_malloc true 16 miTooBig = InterceptResult.fallback
    ∧ Intercept_realloc true 0 16 miTooBig riC8 = InterceptResult.abort
    ∧ InterceptResult.fallback ≠ InterceptResult.abort := by
  refine ⟨by decide, by decide, by decide⟩

/-- Claim C8 as amended: malloc(0) returns null without consulting the
tracked allocator; realloc(null, n) with n nonzero behaves identically
to malloc(n) provided the tracked allocator's result is none of the
four realloc sentinel values (in particular the too-big sentinel,
which malloc treats as fall-back but realloc as a fatal internal
pointer); and realloc(ptr, 0) on a non-null pointer behaves
identically to free(ptr) when the tracked allocator, modelled from the
spec, frees the pointer on size 0 (realloc result null, free
succeeding). -/
theorem c8_allocator_identities (mi : Nat → Nat) (ri : Nat → Nat → Nat)
    (fi : Nat → Bool) (n ptr : Nat) :
    Intercept_malloc true 0 mi = InterceptResult.setReturn 0
    ∧ (∀ mi1 mi2 : Nat → Nat,
        Intercept_malloc true 0 mi1 = Intercept_malloc true 0 mi2)
    ∧ (n ≠ 0 → mi n ≠ kReallocInternalPtr → mi n ≠ kReallocTooBig →
        mi n ≠ kReallocInvalidPtr → mi n ≠ kReallocFreedPtr →
        Intercept_realloc true 0 n mi ri = Intercept_malloc true n mi)
    ∧ (ptr ≠ 0 → ri ptr 0 = 0 → fi ptr = true →
        Intercept_realloc true ptr 0 mi ri = Intercept_free true ptr fi) := by
  refine ⟨rfl, fun mi1 mi2 => rfl, ?_, ?_⟩
  · intro hn h1 h2 h3 h4
    have hnew : reallocNewPtr 0 n mi ri = mi n := by
      unfold reallocNewPtr
      simp
    unfold Intercept_realloc Intercept_malloc
    rw [hnew]
    by_cases hb : mi n = kBadAddr
    · simp [hb, hn]
    · have hmt : (mi n = kMallocTooBig) = False := by
        simp [kMallocTooBig]
        simpa [kReallocInternalPtr] using h1
      simp [hb, hn, h1, h2, h3, h4, hmt]
  · intro hp hr0 hfi
    have hnew : reallocNewPtr ptr 0 mi ri = 0 := by
      unfold reallocNewPtr
      simp [hp, hr0]
    unfold Intercept_realloc Intercept_free
    rw [hnew]
    simp [hfi, kBadAddr, kReallocInternalPtr, kReallocTooBig,
      kReallocInvalidPtr, kReallocFreedPtr]

/-- Claim C8 witness: the amended theorem applied to a well-behaved
tracked allocator, at size 16 and tracked pointer 8. -/
theorem c8_witness :
    Intercept_malloc true 0 miW = InterceptResult.setReturn 0
    ∧ Intercept_realloc true 0 16 miW riW = Intercept_malloc true 16 miW
    ∧ Intercept_realloc true 8 0 miW riW = Intercept_free true 8 fiW :=
  ⟨(c8_allocator_identities miW riW fiW 16 8).1,
   (c8_allocator_identities miW riW fiW 16 8).2.2.1 (by decide) (by decide)
     (by decide) (by decide) (by decide),
   (c8_allocator_identities miW riW fiW 16 8).2.2.2 (by decide) (by decide)
     (by decide)⟩

/-- One rehydration step registers the loaded module under the key
computed from the filename, leaving all other keys untouched. -/
lemma loadEntry_registers (sp : AddrSpace) (path : String) (t : ModuleTable)
    (fname : String) (r : MemoryRegion)
    (h1 : fname ≠ ".") (h2 : fname ≠ "..")
    (hr : sp.ranges.find? (containsB (parseLeadingHex (leadingName fname)))
      = some r) :
    loadEntry sp path t fname r.name = some (path ++ "/" ++ fname) := by
  simp [loadEntry, entryKV, FindRangeName, hr, h1, h2]

/-- Pointwise characterization of the rehydration scan: a key holds
the last module assigned to it by the listing, or its prior value if
the listing never assigns it. -/
lemma preLiftScan_apply (sp : AddrSpace) (path : String) (dir : List String)
    (t : ModuleTable) (k : String) :
    preLiftScan sp path dir t k =
      match assignedKV sp path dir k with
      | some v => some v
      | none => t k := by
  induction dir generalizing t with
  | nil => rfl
  | cons f rest ih =>
    show preLiftScan sp path rest (loadEntry sp path t f) k = _
    rw [ih]
    cases hR : assignedKV sp path rest k with
    | some v => simp [assignedKV, hR]
    | none =>
      simp only [assignedKV, hR]
      cases hE : entryKV sp path f with
      | none => simp [loadEntry, hE]
      | some p =>
        by_cases hk : k = p.1
        · simp [loadEntry, hE, hk]
        · simp [loadEntry, hE, hk]

/-- Scanning the same directory listing twice gives the same module
table as scanning it once. -/
lemma preLiftScan_idem (sp : AddrSpace) (path : String) (dir : List String)
    (t : ModuleTable) :
    preLiftScan sp path dir (preLiftScan sp path dir t)
      = preLiftScan sp path dir t := by
  funext k
  rw [preLiftScan_apply, preLiftScan_apply]
  cases hA : assignedKV sp path dir k <;> simp

/-- Claim C10: during rehydration each cache file (other than "." and
"..") is loaded and registered under the name of the MemoryRegion that
the AddressSpace resolves for the leading hexadecimal address of the
filename — in particular a file processed last leaves the table
mapping that region name to its module — and re-scanning the same
directory a second time yields the same name-to-module table (last
load wins per region name). -/
theorem c10_rehydration_registration (sp : AddrSpace) (path : String)
    (dir : List String) (t : ModuleTable) (fname : String) (r : MemoryRegion)
    (h1 : fname ≠ ".") (h2 : fname ≠ "..")
    (hr : sp.ranges.find? (containsB (parseLeadingHex (leadingName fname)))
      = some r) :
    loadEntry sp path t fname r.name = some (path ++ "/" ++ fname)
    ∧ preLiftScan sp path (dir ++ [fname]) t r.name
      = some (path ++ "/" ++ fname)
    ∧ preLiftScan sp path dir (preLiftScan sp path dir t)
      = preLiftScan sp path dir t := by
  refine ⟨loadEntry_registers sp path t fname r h1 h2 hr, ?_,
    preLiftScan_idem sp path dir t⟩
  have hsplit : preLiftScan sp path (dir ++ [fname]) t
      = loadEntry sp path (preLiftScan sp path dir t) fname := by
    simp [preLiftScan, List.foldl_append]
  rw [hsplit]
  exact loadEntry_registers sp path (preLiftScan sp path dir t) fname r h1 h2 hr

/-- Claim C10 witness: the theorem applied to a one-region address
space and the cache file "0x1000-0x1014", whose leading address 0x1000
lies in the region named "text". -/
theorem c10_witness :
    loadEntry spW "/ws" (fun _ => none) "0x1000-0x1014" "text"
      = some ("/ws" ++ "/" ++ "0x1000-0x1014")
    ∧ preLiftScan spW "/ws" (["0x1000-0x1014"] ++ ["0x1000-0x1014"])
        (fun _ => none) "text" = some ("/ws" ++ "/" ++ "0x1000-0x1014")
    ∧ preLiftScan spW "/ws" ["0x1000-0x1014"]
        (preLiftScan spW "/ws" ["0x1000-0x1014"] (fun _ => none))
      = preLiftScan spW "/ws" ["0x1000-0x1014"] (fun _ => none) :=
  c10_rehydration_registration spW "/ws" ["0x1000-0x1014"] (fun _ => none)
    "0x1000-0x1014" ⟨4096, 8192, "text"⟩ (by decide) (by decide) (by decide)
